import Mathlib

/-!
Verification of the progress-logging utilities in
graphrag/logger/progress.py (module docstring: Progress Logging Utilities).

The module is shallowly embedded: the mutable ProgressTicker object becomes a
state record, and each method becomes a function from the state to the new
state together with the observable effects it produces (log records emitted
through the module-level logger, callback invocations, and a possible
exception raised inside the caller-supplied callback).  Python ints are
modelled as Int, Python str as String, and the float percent field as
Option Rat (it only ever holds None in this module).  A caller-supplied
callback of Python type ProgressHandler may raise: it is modelled as a
function returning Option E, where some e means the callback raised the
exception e and none means it returned normally.
-/

set_option autoImplicit false

namespace GraphragProgress

/-- Embedding of the dataclass Progress: four optional fields, with the same
defaults (all None) as the Python dataclass. -/
structure Progress where
  percent : Option Rat := none
  description : Option String := none
  total_items : Option Int := none
  completed_items : Option Int := none
deriving DecidableEq, Repr

/-- Embedding of ProgressHandler, a callback receiving a Progress snapshot.
The result Option E records a raised exception (some e) or a normal
return (none). -/
def ProgressHandler (E : Type) : Type := Progress → Option E

/-- Python truthiness of an optional string, as used by the test
`if p.description:` — None and the empty string are falsy. -/
def strTruthy : Option String → Bool
  | none => false
  | some s => s ≠ ""

/-- Python str()/percent-s formatting of an optional int, as applied to the
completed_items and total_items arguments of the logger. -/
def pyStrInt : Option Int → String
  | none => "None"
  | some n => toString n

/-- Python percent-s formatting of the optional description string. -/
def pyStrOptString : Option String → String
  | none => "None"
  | some s => s

/-- An observable effect of a ProgressTicker method: a log record emitted via
logger.info, or an invocation of the stored callback with a snapshot. -/
inductive Event where
  | log (line : String)
  | callbackCall (p : Progress)
deriving DecidableEq, Repr

/-- The state of a ProgressTicker object: the fields set by
ProgressTicker.__init__ (Python names _callback, _description, _num_total,
_num_complete). -/
structure ProgressTicker (E : Type) where
  callback : Option (ProgressHandler E)
  description : String
  num_total : Int
  num_complete : Int

/-- Embedding of ProgressTicker.__init__: stores callback, description and
num_total, and initializes num_complete to 0. -/
def ProgressTicker.init {E : Type} (callback : Option (ProgressHandler E))
    (num_total : Int) (description : String) : ProgressTicker E :=
  { callback := callback
    description := description
    num_total := num_total
    num_complete := 0 }

/-- Embedding of ProgressTicker.__call__(num_ticks).  Returns the updated
state, the list of effects in order of occurrence, and the exception raised
by the callback, if any.  Matches the source line by line: first
num_complete is increased by num_ticks; then, if a callback is present, a
snapshot p is built from the fixed total, the updated completed count and
the description; if p.description is truthy a log record
"%s%s/%s" % (p.description, str(p.completed_items), str(p.total_items))
is emitted; finally the callback is invoked with p. -/
def ProgressTicker.call {E : Type} (self : ProgressTicker E) (num_ticks : Int) :
    ProgressTicker E × List Event × Option E :=
  let self := { self with num_complete := self.num_complete + num_ticks }
  match self.callback with
  | none => (self, [], none)
  | some cb =>
    let p : Progress :=
      { total_items := some self.num_total
        completed_items := some self.num_complete
        description := some self.description }
    let logs : List Event :=
      if strTruthy p.description then
        [Event.log (pyStrOptString p.description ++ pyStrInt p.completed_items
          ++ "/" ++ pyStrInt p.total_items)]
      else []
    (self, logs ++ [Event.callbackCall p], cb p)

/-- Embedding of ProgressTicker.done(): if a callback is present it is
invoked with a snapshot whose completed_items is set to the total; the
state is not modified. -/
def ProgressTicker.done {E : Type} (self : ProgressTicker E) :
    ProgressTicker E × List Event × Option E :=
  match self.callback with
  | none => (self, [], none)
  | some cb =>
    let p : Progress :=
      { total_items := some self.num_total
        completed_items := some self.num_total
        description := some self.description }
    (self, [Event.callbackCall p], cb p)

/-- Embedding of the progress_ticker factory function: a plain call to the
constructor. -/
def progress_ticker {E : Type} (callback : Option (ProgressHandler E))
    (num_total : Int) (description : String) : ProgressTicker E :=
  ProgressTicker.init callback num_total description

/-- A Python iterable as used by progress_iterable: an underlying element
list together with a flag telling whether iterating it consumes it (a
single-pass iterator such as a generator) or leaves it intact (a
re-iterable container such as a list). -/
structure IterableModel (α : Type) where
  items : List α
  singlePass : Bool
deriving DecidableEq, Repr

/-- One full iteration pass over the iterable: the elements produced, and
the state of the iterable object afterwards (exhausted when single-pass). -/
def IterableModel.iterate {α : Type} (it : IterableModel α) :
    List α × IterableModel α :=
  (it.items, if it.singlePass then { it with items := [] } else it)

/-- An observable step of the generator returned by progress_iterable: an
effect of the internal ticker, or an element yielded to the consumer. -/
inductive GenEvent (α : Type) where
  | emit (e : Event)
  | yielded (x : α)
deriving DecidableEq, Repr

/-- The loop body of progress_iterable: for item in iterable: tick(1);
yield item.  If the callback raises inside tick(1), the exception
propagates out of the generator and no further element is yielded; the
effects already produced by that tick (the log record and the callback
invocation that raised) are kept in the trace. -/
def runTickLoop {E α : Type} (tick : ProgressTicker E) :
    List α → List (GenEvent α) × Option E
  | [] => ([], none)
  | x :: xs =>
    let step := tick.call 1
    match step.2.2 with
    | some e => (step.2.1.map GenEvent.emit, some e)
    | none =>
      let rest := runTickLoop step.1 xs
      (step.2.1.map GenEvent.emit ++ [GenEvent.yielded x] ++ rest.1, rest.2)

/-- Embedding of progress_iterable(iterable, progress, num_total,
description).  When num_total is None the source evaluates
len(list(iterable)), a full iteration pass that consumes a single-pass
input; then a ProgressTicker is constructed and the (possibly already
exhausted) original iterable object is iterated by the for loop. -/
def progress_iterable {E α : Type} (iterable : IterableModel α)
    (progress : Option (ProgressHandler E)) (num_total : Option Int)
    (description : String) : List (GenEvent α) × Option E :=
  let counted : Int × IterableModel α :=
    match num_total with
    | none =>
      let pass := iterable.iterate
      ((pass.1.length : Int), pass.2)
    | some n => (n, iterable)
  let tick := progress_ticker progress counted.1 description
  runTickLoop tick (counted.2.iterate).1

/-- The elements yielded to the consumer, in order, read off a generator
trace. -/
def yieldsOf {α : Type} : List (GenEvent α) → List α
  | [] => []
  | GenEvent.yielded x :: es => x :: yieldsOf es
  | GenEvent.emit _ :: es => yieldsOf es

/-- The snapshots passed to the callback, in order, read off an effect
list. -/
def snapshotsOf : List Event → List Progress
  | [] => []
  | Event.callbackCall p :: es => p :: snapshotsOf es
  | Event.log _ :: es => snapshotsOf es

/-- The snapshots passed to the callback, in order, read off a generator
trace. -/
def genSnapshotsOf {α : Type} : List (GenEvent α) → List Progress
  | [] => []
  | GenEvent.emit (Event.callbackCall p) :: es => p :: genSnapshotsOf es
  | GenEvent.emit (Event.log _) :: es => genSnapshotsOf es
  | GenEvent.yielded _ :: es => genSnapshotsOf es

/-- A callback that never raises, with the uninhabited exception type: the
well-behaved ProgressHandler used to observe traces. -/
def noExn : ProgressHandler Empty := fun _ => none

/-- N successive calls tick(1) on a ticker, accumulating the effects of all
calls in order (exceptions cannot occur for an Empty exception type). -/
def tickN {E : Type} (tick : ProgressTicker E) : Nat → ProgressTicker E × List Event
  | 0 => (tick, [])
  | n + 1 =>
    let step := tick.call 1
    let rest := tickN step.1 n
    (rest.1, step.2.1 ++ rest.2)

/-- A callback that always raises the exception 7, used to observe
exception propagation. -/
def raise7 : ProgressHandler Nat := fun _ => some 7

/-- Modelled from the spec: the event interleaving the specification
describes for progress-driven iteration.  For each element, first the
per-increment log record (when the description is non-empty), then exactly
one callback invocation whose snapshot carries the fixed total and the
running completed count, then the element itself is yielded to the caller.
Defined to be compared against the trace the embedded generator actually
produces. -/
def specGenTrace {α : Type} (total : Int) (desc : String) :
    Int → List α → List (GenEvent α)
  | _, [] => []
  | completed, x :: xs =>
    (if desc ≠ "" then
      [GenEvent.emit (Event.log (desc ++ toString (completed + 1)
        ++ "/" ++ toString total))]
    else [])
    ++ [GenEvent.emit (Event.callbackCall
          { percent := none, description := some desc
            total_items := some total
            completed_items := some (completed + 1) }),
        GenEvent.yielded x]
    ++ specGenTrace total desc (completed + 1) xs

/-! Helper lemmas characterizing one call of each method. -/

theorem option_empty_eq_none (o : Option Empty) : o = none := by
  cases o with
  | none => rfl
  | some e => exact e.elim

theorem snapshotsOf_append (a b : List Event) :
    snapshotsOf (a ++ b) = snapshotsOf a ++ snapshotsOf b := by
  induction a with
  | nil => rfl
  | cons e es ih => cases e <;> simp [snapshotsOf, ih]

theorem call_of_none {E : Type} (s : ProgressTicker E) (n : Int)
    (h : s.callback = none) :
    s.call n = ({ s with num_complete := s.num_complete + n }, [], none) := by
  simp [ProgressTicker.call, h]

theorem call_of_some {E : Type} (s : ProgressTicker E) (f : ProgressHandler E)
    (n : Int) (h : s.callback = some f) :
    s.call n =
      ({ s with num_complete := s.num_complete + n },
        (if s.description ≠ "" then
          [Event.log (s.description ++ toString (s.num_complete + n)
            ++ "/" ++ toString s.num_total)]
        else [])
        ++ [Event.callbackCall
            { percent := none, description := some s.description
              total_items := some s.num_total
              completed_items := some (s.num_complete + n) }],
        f { percent := none, description := some s.description
            total_items := some s.num_total
            completed_items := some (s.num_complete + n) }) := by
  simp [ProgressTicker.call, h, strTruthy, pyStrInt, pyStrOptString]

theorem done_of_none {E : Type} (s : ProgressTicker E) (h : s.callback = none) :
    s.done = (s, [], none) := by
  simp [ProgressTicker.done, h]

theorem done_of_some {E : Type} (s : ProgressTicker E) (f : ProgressHandler E)
    (h : s.callback = some f) :
    s.done =
      (s, [Event.callbackCall
            { percent := none, description := some s.description
              total_items := some s.num_total
              completed_items := some s.num_total }],
        f { percent := none, description := some s.description
            total_items := some s.num_total
            completed_items := some s.num_total }) := by
  simp [ProgressTicker.done, h]

theorem call_fst {E : Type} (s : ProgressTicker E) (n : Int) :
    (s.call n).1 = { s with num_complete := s.num_complete + n } := by
  cases h : s.callback with
  | none => simp [call_of_none s n h, h]
  | some f => simp [call_of_some s f n h, h]

theorem done_fst {E : Type} (s : ProgressTicker E) : (s.done).1 = s := by
  cases h : s.callback with
  | none => rw [done_of_none s h]
  | some f => rw [done_of_some s f h]

theorem tickN_snapshots_get {E : Type} (f : ProgressHandler E) :
    ∀ (n i : Nat) (t : ProgressTicker E), t.callback = some f → i < n →
      (snapshotsOf (tickN t n).2)[i]? =
        some { percent := none, description := some t.description
               total_items := some t.num_total
               completed_items := some (t.num_complete + ((i : Int) + 1)) } := by
  intro n
  induction n with
  | zero => intro i t _ hi; omega
  | succ m ih =>
    intro i t hcb hi
    have hstep := call_of_some t f 1 hcb
    cases i with
    | zero =>
      simp [tickN, hstep, snapshotsOf_append]
      split <;> simp [snapshotsOf]
    | succ j =>
      have hj : j < m := by omega
      have hrec := ih j { t with num_complete := t.num_complete + 1 } hcb hj
      rcases eq_or_ne t.description ("") with hd | hd
      · rw [hd] at hrec
        simp [tickN, hstep, snapshotsOf_append, hd, snapshotsOf]
        rw [hrec]
        simp
        omega
      · simp [tickN, hstep, snapshotsOf_append, hd, snapshotsOf]
        rw [hrec]
        simp
        omega

theorem yieldsOf_append {α : Type} (a b : List (GenEvent α)) :
    yieldsOf (a ++ b) = yieldsOf a ++ yieldsOf b := by
  induction a with
  | nil => rfl
  | cons e es ih => cases e <;> simp [yieldsOf, ih]

theorem yieldsOf_map_emit {α : Type} (es : List Event) :
    yieldsOf (es.map (GenEvent.emit (α := α))) = [] := by
  induction es with
  | nil => rfl
  | cons e es ih => cases e <;> simp [yieldsOf, ih]

theorem genSnapshotsOf_append {α : Type} (a b : List (GenEvent α)) :
    genSnapshotsOf (a ++ b) = genSnapshotsOf a ++ genSnapshotsOf b := by
  induction a with
  | nil => rfl
  | cons e es ih => cases e with
    | emit ev => cases ev <;> simp [genSnapshotsOf, ih]
    | yielded x => simp [genSnapshotsOf, ih]

theorem yieldsOf_specGenTrace {α : Type} (total : Int) (desc : String) :
    ∀ (xs : List α) (completed : Int),
      yieldsOf (specGenTrace total desc completed xs) = xs := by
  intro xs
  induction xs with
  | nil => intro c; rfl
  | cons x xs ih =>
    intro c
    rcases eq_or_ne desc ("") with hd | hd
    · subst hd
      simp [specGenTrace, yieldsOf_append, yieldsOf, ih]
    · simp [specGenTrace, hd, yieldsOf_append, yieldsOf, ih]

theorem specGenTrace_total_items {α : Type} (total : Int) (desc : String) :
    ∀ (xs : List α) (completed : Int) (p : Progress),
      p ∈ genSnapshotsOf (specGenTrace total desc completed xs) →
        p.total_items = some total := by
  intro xs
  induction xs with
  | nil => intro c p hp; simp [specGenTrace, genSnapshotsOf] at hp
  | cons x xs ih =>
    intro c p hp
    rcases eq_or_ne desc ("") with hd | hd
    · subst hd
      simp [specGenTrace, genSnapshotsOf_append, genSnapshotsOf] at hp
      rcases hp with hp | hp
      · rw [hp]
      · exact ih (c + 1) p hp
    · simp [specGenTrace, hd, genSnapshotsOf_append, genSnapshotsOf] at hp
      rcases hp with hp | hp
      · rw [hp]
      · exact ih (c + 1) p hp

theorem runTickLoop_of_some (f : ProgressHandler Empty) {α : Type} :
    ∀ (xs : List α) (t : ProgressTicker Empty), t.callback = some f →
      runTickLoop t xs =
        (specGenTrace t.num_total t.description t.num_complete xs, none) := by
  intro xs
  induction xs with
  | nil => intro t _; rfl
  | cons x xs ih =>
    intro t hcb
    have hstep := call_of_some t f 1 hcb
    have hout :
        f { percent := none
            description := some t.description
            total_items := some t.num_total
            completed_items := some (t.num_complete + 1) } = none :=
      option_empty_eq_none _
    have hrec := ih { t with num_complete := t.num_complete + 1 } hcb
    rcases eq_or_ne t.description ("") with hd | hd
    · rw [hd] at hstep hout hrec
      simp [runTickLoop, hstep, hout, hd, specGenTrace, hrec]
    · simp [runTickLoop, hstep, hout, hd, specGenTrace, hrec]

/-! Theorems settling the specification claims. -/

/-- Claim C2: for a reporter constructed with total T and a callback, after
N calls to Increment with tick size 1, the snapshot passed to the callback
on the N-th call has completed_items equal to N — with no clamping against
T even when N exceeds T — and total_items equal to T. -/
theorem C2_nth_increment_snapshot (T : Int) (desc : String) (N : Nat)
    (h : 0 < N) :
    (snapshotsOf (tickN (ProgressTicker.init (some noExn) T desc) N).2)[N - 1]? =
      some { percent := none, description := some desc
             total_items := some T, completed_items := some ((N : Int)) } := by
  have h2 := tickN_snapshots_get noExn N (N - 1)
    (ProgressTicker.init (some noExn) T desc) rfl (by omega)
  rw [h2]
  simp [ProgressTicker.init]
  omega

theorem C2_witness :
    0 < 3 ∧
    (snapshotsOf (tickN (ProgressTicker.init (some noExn) 1 ("")) 3).2)[3 - 1]? =
      some { percent := none, description := some ("")
             total_items := some 1, completed_items := some (((3 : Nat) : Int)) } :=
  ⟨by decide, C2_nth_increment_snapshot 1 ("") 3 (by decide)⟩

/-- Claim C3: when a callback is present, Done invokes it with a snapshot
whose completed_items equals the stored total (whatever the running count
is) and whose description is the stored description, leaves the state — in
particular the stored completed count — unchanged, and a second Done call
produces the very same invocation again. -/
theorem C3_done_forces_completed_eq_total (E : Type) (s : ProgressTicker E)
    (f : ProgressHandler E) (h : s.callback = some f) :
    s.done =
      (s, [Event.callbackCall
            { percent := none, description := some s.description
              total_items := some s.num_total
              completed_items := some s.num_total }],
        f { percent := none, description := some s.description
            total_items := some s.num_total
            completed_items := some s.num_total })
    ∧ ((s.done).1).done = s.done := by
  refine ⟨done_of_some s f h, ?_⟩
  rw [done_fst]

theorem C3_witness :
    (ProgressTicker.mk (some noExn) ("d") 3 7).callback = some noExn ∧
    ((ProgressTicker.mk (some noExn) ("d") 3 7).done =
      (ProgressTicker.mk (some noExn) ("d") 3 7,
        [Event.callbackCall
          { percent := none, description := some ("d")
            total_items := some 3, completed_items := some 3 }],
        noExn { percent := none, description := some ("d")
                total_items := some 3, completed_items := some 3 })
     ∧ (((ProgressTicker.mk (some noExn) ("d") 3 7).done).1).done
         = (ProgressTicker.mk (some noExn) ("d") 3 7).done) :=
  ⟨rfl, C3_done_forces_completed_eq_total Empty _ noExn rfl⟩

/-- Claim C4: an exception raised inside the supplied callback during
Increment or Done propagates unchanged to the caller — the operation's
outcome is exactly the raised exception, with no catching, recovery, retry
or suppression. -/
theorem C4_callback_exception_propagates (E : Type) (s : ProgressTicker E)
    (f : ProgressHandler E) (n : Int) (e : E) (h : s.callback = some f) :
    (f { percent := none
         description := some s.description
         total_items := some s.num_total
         completed_items := some (s.num_complete + n) } = some e →
      (s.call n).2.2 = some e)
    ∧ (f { percent := none
           description := some s.description
           total_items := some s.num_total
           completed_items := some s.num_total } = some e →
      (s.done).2.2 = some e) := by
  constructor
  · intro hf
    rw [call_of_some s f n h]
    exact hf
  · intro hf
    rw [done_of_some s f h]
    exact hf

theorem C4_witness :
    (ProgressTicker.mk (some raise7) ("") 3 0).callback = some raise7 ∧
    raise7 { percent := none, description := some ("")
             total_items := some 3, completed_items := some (0 + 1) } = some 7 ∧
    raise7 { percent := none, description := some ("")
             total_items := some 3, completed_items := some 3 } = some 7 ∧
    (((ProgressTicker.mk (some raise7) ("") 3 0).call 1).2.2 = some 7
      ∧ ((ProgressTicker.mk (some raise7) ("") 3 0).done).2.2 = some 7) :=
  ⟨rfl, rfl, rfl,
    (C4_callback_exception_propagates Nat _ raise7 1 7 rfl).1 rfl,
    (C4_callback_exception_propagates Nat _ raise7 1 7 rfl).2 rfl⟩

/-- Claim C6: when a callback is present and the description is non-empty,
each Increment emits exactly one informational log record, formed as the
description followed directly by completed, a slash, and total — no
separator beyond what the description itself embeds — and the record comes
before the callback invocation with the snapshot. -/
theorem C6_log_record (E : Type) (s : ProgressTicker E)
    (f : ProgressHandler E) (n : Int) (hcb : s.callback = some f)
    (hd : s.description ≠ "") :
    (s.call n).2.1 =
      [Event.log (s.description ++ toString (s.num_complete + n)
        ++ "/" ++ toString s.num_total),
       Event.callbackCall
        { percent := none, description := some s.description
          total_items := some s.num_total
          completed_items := some (s.num_complete + n) }] := by
  rw [call_of_some s f n hcb]
  simp [hd]

theorem C6_witness :
    (ProgressTicker.mk (some noExn) ("Loading ") 3 0).callback = some noExn ∧
    ("Loading " : String) ≠ "" ∧
    ((ProgressTicker.mk (some noExn) ("Loading ") 3 0).call 1).2.1 =
      [Event.log (("Loading ") ++ toString ((0 : Int) + 1)
        ++ "/" ++ toString (3 : Int)),
       Event.callbackCall
        { percent := none, description := some ("Loading ")
          total_items := some 3, completed_items := some ((0 : Int) + 1) }] :=
  ⟨rfl, by decide, C6_log_record Empty _ noExn 1 rfl (by decide)⟩

/-- Claim C7: with no callback stored, Increment still adds the tick count
to the completed counter but produces no log record, no callback invocation
and no exception, and Done is a complete no-op. -/
theorem C7_no_callback_no_op (E : Type) (s : ProgressTicker E) (n : Int)
    (h : s.callback = none) :
    s.call n = ({ s with num_complete := s.num_complete + n }, [], none)
    ∧ s.done = (s, [], none) :=
  ⟨call_of_none s n h, done_of_none s h⟩

theorem C7_witness :
    (ProgressTicker.mk (none : Option (ProgressHandler Empty)) ("") 3 0).callback
        = none ∧
    ((ProgressTicker.mk (none : Option (ProgressHandler Empty)) ("") 3 0).call 1
        = (ProgressTicker.mk none ("") 3 (0 + 1), [], none)
      ∧ (ProgressTicker.mk (none : Option (ProgressHandler Empty)) ("") 3 0).done
        = (ProgressTicker.mk none ("") 3 0, [], none)) :=
  ⟨rfl, C7_no_callback_no_op Empty _ 1 rfl⟩

/-- Claim C8 fails as stated: Increment accepts any integer tick size, and a
negative tick size decreases the stored completed count — here a single
Increment(-1) takes it from 0 down to -1. -/
theorem C8_counterexample :
    (((ProgressTicker.init (none : Option (ProgressHandler Empty)) 3 ("")).call
        (-1)).1).num_complete
      < (ProgressTicker.init (none : Option (ProgressHandler Empty)) 3
          ("")).num_complete := by
  decide

/-- Claim C8, amended: the completed count starts at 0 at construction, and
every Increment with a non-negative tick size and every Done leaves the
stored completed count no smaller than before; a negative tick size,
however, decreases it. -/
theorem C8_monotone_of_nonneg :
    (∀ (E : Type) (cb : Option (ProgressHandler E)) (T : Int) (d : String),
      (ProgressTicker.init cb T d).num_complete = 0)
    ∧ (∀ (E : Type) (s : ProgressTicker E) (n : Int), 0 ≤ n →
        s.num_complete ≤ ((s.call n).1).num_complete)
    ∧ (∀ (E : Type) (s : ProgressTicker E),
        s.num_complete ≤ ((s.done).1).num_complete) := by
  refine ⟨fun E cb T d => rfl, fun E s n hn => ?_, fun E s => ?_⟩
  · rw [call_fst]
    exact le_add_of_nonneg_right hn
  · rw [done_fst]

theorem C8_witness :
    (0 : Int) ≤ 1 ∧
    (ProgressTicker.mk (none : Option (ProgressHandler Empty)) ("") 3 0).num_complete
      ≤ (((ProgressTicker.mk (none : Option (ProgressHandler Empty)) ("") 3 0).call
          1).1).num_complete :=
  ⟨by decide, C8_monotone_of_nonneg.2.1 Empty _ 1 (by decide)⟩

/-- Claim C9: every snapshot passed to the callback by Increment or Done has
percent = none — the reporter never computes or sets a fractional
completion value. -/
theorem C9_percent_always_none (E : Type) (s : ProgressTicker E) (n : Int)
    (p : Progress)
    (h : Event.callbackCall p ∈ (s.call n).2.1
        ∨ Event.callbackCall p ∈ (s.done).2.1) :
    p.percent = none := by
  cases hcb : s.callback with
  | none =>
    rw [call_of_none s n hcb, done_of_none s hcb] at h
    simp at h
  | some f =>
    rw [call_of_some s f n hcb, done_of_some s f hcb] at h
    rcases eq_or_ne s.description ("") with hd | hd <;>
      simp [hd] at h <;>
      rcases h with h | h <;> simp [h]

theorem C9_witness :
    (Event.callbackCall
        { percent := none, description := some ("")
          total_items := some 3, completed_items := some 1 }
      ∈ ((ProgressTicker.mk (some noExn) ("") 3 0).call 1).2.1
     ∨ Event.callbackCall
        { percent := none, description := some ("")
          total_items := some 3, completed_items := some 1 }
      ∈ ((ProgressTicker.mk (some noExn) ("") 3 0).done).2.1) ∧
    ({ percent := none, description := some ("")
       total_items := some 3, completed_items := some 1 } : Progress).percent
      = none :=
  ⟨Or.inl (by decide),
   C9_percent_always_none Empty (ProgressTicker.mk (some noExn) ("") 3 0) 1
     { percent := none, description := some ("")
       total_items := some 3, completed_items := some 1 }
     (Or.inl (by decide))⟩

/-- Claim C1 fails as stated for single-pass inputs: wrapping the
one-element single-pass iterator holding [0] with no explicit total yields
no elements at all — the internal counting pass consumes the input, and no
new total-length-aware sequence is produced for the caller. -/
theorem C1_counterexample :
    yieldsOf ((progress_iterable (IterableModel.mk ([(0 : Nat)]) true)
        (some noExn) none ("")).1) = ([] : List Nat)
    ∧ ([] : List Nat) ≠ [(0 : Nat)] := by
  constructor
  · rfl
  · decide

/-- Claim C1, amended: for a re-iterable (multi-pass) input of length L,
progress-driven iteration with no explicit total produces exactly the
specified interleaving — for each of the L elements, one callback
invocation with the running count (preceded by the log record when the
description is non-empty) and then the element — so exactly L elements are
yielded and every snapshot carries total_items = L.  A single-pass input,
by contrast, is consumed by the internal counting pass and yields nothing:
the original input object, not a fresh sequence, is iterated. -/
theorem C1_multipass_interleaving {α : Type} (it : IterableModel α)
    (desc : String) (h : it.singlePass = false) :
    progress_iterable it (some noExn) none desc
        = (specGenTrace ((it.items.length : Int)) desc 0 it.items, none)
    ∧ yieldsOf (specGenTrace (α := α) ((it.items.length : Int)) desc 0 it.items)
        = it.items
    ∧ ∀ p ∈ genSnapshotsOf
          (specGenTrace (α := α) ((it.items.length : Int)) desc 0 it.items),
        p.total_items = some ((it.items.length : Int)) := by
  refine ⟨?_, yieldsOf_specGenTrace _ _ _ _,
    fun p hp => specGenTrace_total_items _ _ _ _ p hp⟩
  have hloop := runTickLoop_of_some noExn it.items
    (ProgressTicker.init (some noExn) ((it.items.length : Int)) desc) rfl
  simp [ProgressTicker.init] at hloop
  simp [progress_iterable, progress_ticker, ProgressTicker.init,
    IterableModel.iterate, h]
  exact hloop

theorem C1_witness :
    (IterableModel.mk ([3, 4] : List Nat) false).singlePass = false ∧
    progress_iterable (IterableModel.mk ([3, 4] : List Nat) false)
        (some noExn) none ("")
      = (specGenTrace
          (((IterableModel.mk ([3, 4] : List Nat) false).items.length : Int))
          ("") 0 ((IterableModel.mk ([3, 4] : List Nat) false).items), none) ∧
    yieldsOf (specGenTrace (α := Nat)
        (((IterableModel.mk ([3, 4] : List Nat) false).items.length : Int))
        ("") 0 ((IterableModel.mk ([3, 4] : List Nat) false).items))
      = (IterableModel.mk ([3, 4] : List Nat) false).items ∧
    ({ percent := none, description := some ("")
       total_items := some 2, completed_items := some 1 } : Progress).total_items
      = some (((IterableModel.mk ([3, 4] : List Nat) false).items.length : Int)) :=
  ⟨rfl,
   (C1_multipass_interleaving (IterableModel.mk ([3, 4] : List Nat) false)
     ("") rfl).1,
   (C1_multipass_interleaving (IterableModel.mk ([3, 4] : List Nat) false)
     ("") rfl).2.1,
   (C1_multipass_interleaving (IterableModel.mk ([3, 4] : List Nat) false)
     ("") rfl).2.2
     { percent := none, description := some ("")
       total_items := some 2, completed_items := some 1 } (by decide)⟩

/-- Claim C5: with an explicit total — even one differing from the actual
sequence length — progress-driven iteration yields every actual element of
the input (also for single-pass inputs, since nothing is materialized), and
every snapshot passed to the callback carries the explicit total
throughout. -/
theorem C5_explicit_total {α : Type} (it : IterableModel α) (T : Int)
    (desc : String) :
    progress_iterable it (some noExn) (some T) desc
        = (specGenTrace T desc 0 it.items, none)
    ∧ yieldsOf (specGenTrace (α := α) T desc 0 it.items) = it.items
    ∧ ∀ p ∈ genSnapshotsOf (specGenTrace (α := α) T desc 0 it.items),
        p.total_items = some T := by
  refine ⟨?_, yieldsOf_specGenTrace _ _ _ _,
    fun p hp => specGenTrace_total_items _ _ _ _ p hp⟩
  have hloop := runTickLoop_of_some noExn it.items
    (ProgressTicker.init (some noExn) T desc) rfl
  simp [ProgressTicker.init] at hloop
  simp [progress_iterable, progress_ticker, ProgressTicker.init,
    IterableModel.iterate]
  exact hloop

theorem C5_witness :
    progress_iterable (IterableModel.mk ([(7 : Nat)]) true)
        (some noExn) (some 5) ("")
      = (specGenTrace 5 ("") 0 ((IterableModel.mk ([(7 : Nat)]) true).items),
          none) ∧
    yieldsOf (specGenTrace (α := Nat) 5 ("") 0
        ((IterableModel.mk ([(7 : Nat)]) true).items))
      = (IterableModel.mk ([(7 : Nat)]) true).items ∧
    ({ percent := none, description := some ("")
       total_items := some 5, completed_items := some 1 } : Progress).total_items
      = some 5 :=
  ⟨(C5_explicit_total (IterableModel.mk ([(7 : Nat)]) true) 5 ("")).1,
   (C5_explicit_total (IterableModel.mk ([(7 : Nat)]) true) 5 ("")).2.1,
   (C5_explicit_total (IterableModel.mk ([(7 : Nat)]) true) 5 ("")).2.2
     { percent := none, description := some ("")
       total_items := some 5, completed_items := some 1 } (by decide)⟩

/-- Claim C10: with the total omitted, progress_iterable counts the input
by materializing it, which exhausts a single-pass input object; the for
loop then iterates that same exhausted object — not the materialized copy —
so the wrapper yields no element and never invokes the callback. -/
theorem C10_single_pass_exhausted (E α : Type) (it : IterableModel α)
    (cb : Option (ProgressHandler E)) (desc : String)
    (h : it.singlePass = true) :
    progress_iterable it cb none desc = ([], none) := by
  simp [progress_iterable, IterableModel.iterate, h, progress_ticker,
    runTickLoop]

theorem C10_witness :
    (IterableModel.mk ([(0 : Nat)]) true).singlePass = true ∧
    progress_iterable (IterableModel.mk ([(0 : Nat)]) true)
        (some noExn) none ("x") = ([], none) :=
  ⟨rfl, C10_single_pass_exhausted Empty Nat (IterableModel.mk ([(0 : Nat)]) true)
    (some noExn) ("x") rfl⟩

end GraphragProgress
